import Mathlib

/-!
Verification of the Shopify inventory-webhook ingestion pipeline.

The development shallowly embeds the TypeScript sources:

* `ShopifyWebhookValidator.validate` (src/adapters/validators/ShopifyWebhookValidator.ts),
  together with executable models of Node's `crypto.createHmac("sha256", …).digest("base64")`:
  UTF-8 encoding, SHA-256, HMAC, base64 and lowercase hex encodings over byte lists
  (bytes and 32-bit words are `Nat` with explicit `% 2 ^ 32` masking).
* `InventoryLevel` (src/domain/entities/InventoryLevel.ts): the constructor validates and
  throws, which is modelled by `InventoryLevel.create : … → Except String InventoryLevel`.
* `ProcessInventoryWebhookUseCase` (multi-item variant listed in src/README.md):
  `transformToEntity`/`transformToEntities`, `saveInventories` and `execute`.
  JavaScript's `new Date(s)` is a platform function and is passed in as a parameter
  `pd : String → Option Int` (`none` models a `NaN` date). The injected repository is
  modelled by its behaviour: `bulkOutcome : Option String` is the outcome of the one
  `saveMany` call (`some msg` models a rejection with message `msg`) and
  `saveOutcome : Nat → Option String` the outcome of the `i`-th individual `save` call.
  Every store interaction is also recorded in an explicit `StoreCall` trace.
* `WebhookPayloadParser.extractShopName` / `extractTopic` / `extractSignature`
  (src/adapters/parsers/WebhookPayloadParser.ts), with JavaScript truthiness of
  `a || b` made explicit (`none` and `some ""` are falsy).
* `handler` (src/handler.ts). `JSON.parse` is a platform function, so the composed
  `WebhookPayloadParser.parseInventoryLevels` is passed in as a parameter
  `parseLevels : String → Except String (List WebhookInventoryLevelDTO)`.

All functions are total, which also captures the "never throws" clauses: a thrown
JavaScript error is always represented as an `Except.error` / response value, never
as a missing case.
-/

/-! ## Bytes, 32-bit words and SHA-256 -/

/-- UTF-8 encoding of one character, as Node's `Buffer.from(s, "utf8")` produces it. -/
def utf8Char (c : Char) : List Nat :=
  let n := c.toNat
  if n < 128 then [n]
  else if n < 2048 then [192 + n / 64, 128 + n % 64]
  else if n < 65536 then [224 + n / 4096, 128 + n / 64 % 64, 128 + n % 64]
  else [240 + n / 262144, 128 + n / 4096 % 64, 128 + n / 64 % 64, 128 + n % 64]

/-- UTF-8 bytes of a string (the encoding `hmac.update(body, "utf8")` applies). -/
def utf8Bytes (s : String) : List Nat :=
  s.data.flatMap utf8Char

/-- Addition of 32-bit words. -/
def wadd (a b : Nat) : Nat := (a + b) % 4294967296

/-- Right rotation of a 32-bit word by `n` places. -/
def rotr (n x : Nat) : Nat := x / 2 ^ n + x % 2 ^ n * 2 ^ (32 - n)

/-- Bitwise complement of a 32-bit word. -/
def wnot (x : Nat) : Nat := x ^^^ 4294967295

/-- SHA-256 `Ch e f g`. -/
def sha256Ch (e f g : Nat) : Nat := (e &&& f) ^^^ (wnot e &&& g)

/-- SHA-256 `Maj a b c`. -/
def sha256Maj (a b c : Nat) : Nat := (a &&& b) ^^^ (a &&& c) ^^^ (b &&& c)

/-- SHA-256 big sigma-0. -/
def bigSigma0 (x : Nat) : Nat := rotr 2 x ^^^ rotr 13 x ^^^ rotr 22 x

/-- SHA-256 big sigma-1. -/
def bigSigma1 (x : Nat) : Nat := rotr 6 x ^^^ rotr 11 x ^^^ rotr 25 x

/-- SHA-256 small sigma-0. -/
def smallSigma0 (x : Nat) : Nat := rotr 7 x ^^^ rotr 18 x ^^^ x / 2 ^ 3

/-- SHA-256 small sigma-1. -/
def smallSigma1 (x : Nat) : Nat := rotr 17 x ^^^ rotr 19 x ^^^ x / 2 ^ 10

/-- The SHA-256 round constants. -/
def sha256K : List Nat :=
  [1116352408, 1899447441, 3049323471, 3921009573, 961987163, 1508970993,
   2453635748, 2870763221, 3624381080, 310598401, 607225278, 1426881987,
   1925078388, 2162078206, 2614888103, 3248222580, 3835390401, 4022224774,
   264347078, 604807628, 770255983, 1249150122, 1555081692, 1996064986,
   2554220882, 2821834349, 2952996808, 3210313671, 3336571891, 3584528711,
   113926993, 338241895, 666307205, 773529912, 1294757372, 1396182291,
   1695183700, 1986661051, 2177026350, 2456956037, 2730485921, 2820302411,
   3259730800, 3345764771, 3516065817, 3600352804, 4094571909, 275423344,
   430227734, 506948616, 659060556, 883997877, 958139571, 1322822218,
   1537002063, 1747873779, 1955562222, 2024104815, 2227730452, 2361852424,
   2428436474, 2756734187, 3204031479, 3329325298]

/-- Working state of the SHA-256 compression function (eight 32-bit words). -/
structure Sha256State where
  a : Nat
  b : Nat
  c : Nat
  d : Nat
  e : Nat
  f : Nat
  g : Nat
  h : Nat
deriving DecidableEq

/-- The SHA-256 initial hash value. -/
def sha256H0 : Sha256State :=
  ⟨1779033703, 3144134277, 1013904242, 2773480762, 1359893119, 2600822924, 528734635, 1541459225⟩

/-- Pack big-endian groups of four bytes into 32-bit words. -/
def toWords : List Nat → List Nat
  | a :: b :: c :: d :: rest => (((a * 256 + b) * 256 + c) * 256 + d) :: toWords rest
  | _ => []

/-- Extend the sixteen block words to the 64-entry SHA-256 message schedule. -/
def sha256Schedule (block : List Nat) : List Nat :=
  (List.range 48).foldl
    (fun w _ =>
      let n := w.length
      let next :=
        wadd (wadd (w.getD (n - 16) 0) (smallSigma0 (w.getD (n - 15) 0)))
             (wadd (w.getD (n - 7) 0) (smallSigma1 (w.getD (n - 2) 0)))
      w ++ [next])
    (toWords block)

/-- One SHA-256 round. -/
def sha256Round (s : Sha256State) (k w : Nat) : Sha256State :=
  let t1 := wadd s.h (wadd (bigSigma1 s.e) (wadd (sha256Ch s.e s.f s.g) (wadd k w)))
  let t2 := wadd (bigSigma0 s.a) (sha256Maj s.a s.b s.c)
  ⟨wadd t1 t2, s.a, s.b, s.c, wadd s.d t1, s.e, s.f, s.g⟩

/-- Compress one 64-byte block into the running hash state. -/
def sha256Compress (st : Sha256State) (block : List Nat) : Sha256State :=
  let r := (List.zip sha256K (sha256Schedule block)).foldl
    (fun s kw => sha256Round s kw.1 kw.2) st
  ⟨wadd st.a r.a, wadd st.b r.b, wadd st.c r.c, wadd st.d r.d,
   wadd st.e r.e, wadd st.f r.f, wadd st.g r.g, wadd st.h r.h⟩

/-- The 8-byte big-endian encoding of the message bit length. -/
def lenBytes (n : Nat) : List Nat :=
  [n / 2 ^ 56 % 256, n / 2 ^ 48 % 256, n / 2 ^ 40 % 256, n / 2 ^ 32 % 256,
   n / 2 ^ 24 % 256, n / 2 ^ 16 % 256, n / 2 ^ 8 % 256, n % 256]

/-- SHA-256 message padding: `0x80`, zeros, then the 64-bit big-endian bit length. -/
def sha256Pad (msg : List Nat) : List Nat :=
  msg ++ [128] ++ List.replicate ((64 - (msg.length + 9) % 64) % 64) 0 ++ lenBytes (msg.length * 8)

/-- Big-endian bytes of one 32-bit word. -/
def wordBytes (x : Nat) : List Nat :=
  [x / 2 ^ 24 % 256, x / 2 ^ 16 % 256, x / 2 ^ 8 % 256, x % 256]

/-- The 32 digest bytes of a final hash state. -/
def digestBytes (s : Sha256State) : List Nat :=
  wordBytes s.a ++ wordBytes s.b ++ wordBytes s.c ++ wordBytes s.d ++
  wordBytes s.e ++ wordBytes s.f ++ wordBytes s.g ++ wordBytes s.h

/-- SHA-256 of a byte list. -/
def sha256 (msg : List Nat) : List Nat :=
  let padded := sha256Pad msg
  digestBytes ((List.range (padded.length / 64)).foldl
    (fun st i => sha256Compress st ((padded.drop (64 * i)).take 64)) sha256H0)

/-- HMAC-SHA256 of `body` under `secret`, both UTF-8 strings, as
`crypto.createHmac("sha256", secret).update(body, "utf8").digest()` computes it. -/
def hmacSha256 (secret body : String) : List Nat :=
  let key0 := utf8Bytes secret
  let key1 := if 64 < key0.length then sha256 key0 else key0
  let key := key1 ++ List.replicate (64 - key1.length) 0
  sha256 (key.map (fun x => x ^^^ 92) ++ sha256 (key.map (fun x => x ^^^ 54) ++ utf8Bytes body))

/-! ## Base64 and hex encodings -/

/-- The base64 alphabet. -/
def base64Alphabet : List Char :=
  "ABCDEFGHIJKLMNOPQRSTUVWXYZabcdefghijklmnopqrstuvwxyz0123456789+/".data

/-- The base64 character of a 6-bit group. -/
def b64c (n : Nat) : Char := base64Alphabet.getD n 'A'

/-- Base64 characters of a byte list, processing three bytes at a time, with
trailing `'='` padding as `Buffer.toString("base64")` emits it. -/
def base64Chunks : List Nat → List Char
  | [] => []
  | [a] => [b64c (a / 4), b64c (a % 4 * 16), '=', '=']
  | [a, b] => [b64c (a / 4), b64c (a % 4 * 16 + b / 16), b64c (b % 16 * 4), '=']
  | a :: b :: c :: rest =>
      b64c (a / 4) :: b64c (a % 4 * 16 + b / 16) :: b64c (b % 16 * 4 + c / 64) :: b64c (c % 64)
        :: base64Chunks rest

/-- Base64 encoding of a byte list (`digest("base64")`). -/
def base64Encode (bytes : List Nat) : String := String.mk (base64Chunks bytes)

/-- The lowercase hex digits. -/
def hexDigitChars : List Char := "0123456789abcdef".data

/-- Lowercase hex characters of a byte list. -/
def hexChunks : List Nat → List Char
  | [] => []
  | b :: rest => hexDigitChars.getD (b / 16 % 16) '0' :: hexDigitChars.getD (b % 16) '0' :: hexChunks rest

/-- Lowercase hex encoding of a byte list (`digest("hex")`). -/
def hexEncode (bytes : List Nat) : String := String.mk (hexChunks bytes)

/-! ## ShopifyWebhookValidator -/

/-- `ShopifyWebhookValidator.validate` (ShopifyWebhookValidator.ts, lines 12-35).
`signature = none` models an `undefined` argument; JavaScript's `!signature` is
also true for the empty string, hence the explicit `sig = ""` test. The function
is total: it never throws. -/
def ShopifyWebhookValidator.validate (sharedSecret body : String) (signature : Option String) : Bool :=
  match signature with
  | none => false
  | some sig =>
    if sig = "" then false
    else if body = "" then false
    else base64Encode (hmacSha256 sharedSecret body) == sig

/-- JavaScript whitespace for `String.prototype.trim` (the characters relevant
to header/shop-name values). -/
def isJsWhitespace (c : Char) : Bool :=
  c = ' ' || c = '\t' || c = '\n' || c = '\r' || c = '\x0b' || c = '\x0c'

/-- JavaScript `s.trim()`: drop leading and trailing whitespace. -/
def jsTrim (s : String) : String :=
  String.mk (((s.data.dropWhile isJsWhitespace).reverse.dropWhile isJsWhitespace).reverse)

/-! ## InventoryLevel -/

/-- `InventoryLevel` (InventoryLevel.ts). `updatedAt` holds the epoch value of the
`Date` passed to the constructor; the constructor's date guard
`!this.updatedAt || !(this.updatedAt instanceof Date)` is satisfied by every `Date`
object, so it leaves no residue on this representation. -/
structure InventoryLevel where
  shopName : String
  variantId : Int
  locationId : Int
  available : Int
  updatedAt : Int
  inventoryItemId : Option Int
deriving DecidableEq

/-- The `InventoryLevel` constructor together with its `validate` member
(InventoryLevel.ts, lines 5-33): each `throw` becomes an `Except.error` with the
thrown message, in source order, and an entity value exists only when every
check passes. -/
def InventoryLevel.create (shopName : String) (variantId locationId available : Int)
    (updatedAt : Int) (inventoryItemId : Option Int) : Except String InventoryLevel :=
  if shopName = "" ∨ jsTrim shopName = "" then .error "Shop name is required"
  else if variantId ≤ 0 then .error "Variant ID must be positive"
  else if locationId ≤ 0 then .error "Location ID must be positive"
  else if available < 0 then .error "Available stock cannot be negative"
  else .ok ⟨shopName, variantId, locationId, available, updatedAt, inventoryItemId⟩

/-- `InventoryLevel.getCompositeKey` (InventoryLevel.ts, lines 38-40). -/
def InventoryLevel.getCompositeKey (inv : InventoryLevel) : String :=
  inv.shopName ++ "#" ++ toString inv.variantId

/-- `InventoryLevel.getLocationKey` (InventoryLevel.ts, lines 45-47). -/
def InventoryLevel.getLocationKey (inv : InventoryLevel) : String :=
  toString inv.locationId

/-! ## ProcessInventoryWebhookUseCase -/

/-- `WebhookInventoryLevelDTO` (use case, src/README.md). -/
structure WebhookInventoryLevelDTO where
  inventory_item_id : Int
  location_id : Int
  available : Int
  updated_at : String
deriving DecidableEq

/-- `ProcessInventoryWebhookRequest` (multi-item variant, src/README.md). -/
structure ProcessInventoryWebhookRequest where
  shopName : String
  rawBody : String
  signature : Option String
  inventoryLevels : List WebhookInventoryLevelDTO
deriving DecidableEq

/-- One entry of the `errors` array of the use-case response. -/
structure SaveError where
  index : Nat
  reason : String
deriving DecidableEq

/-- `ProcessInventoryWebhookResponse` (src/README.md). -/
structure ProcessInventoryWebhookResponse where
  success : Bool
  processedCount : Nat
  errors : List SaveError
deriving DecidableEq

/-- A call issued against the injected `InventoryRepository`. -/
inductive StoreCall where
  | saveMany (items : List InventoryLevel)
  | save (item : InventoryLevel)
deriving DecidableEq

/-- The body of the `dtos.map` callback of
`ProcessInventoryWebhookUseCase.transformToEntities` (src/README.md, lines 424-440)
for one DTO: parse `updated_at` (`pd` models `new Date(s).getTime()`, `none` a `NaN`
result), throw on an unparsable date, then construct the entity with
`variantId := dto.inventory_item_id` and `inventoryItemId := dto.inventory_item_id`. -/
def ProcessInventoryWebhookUseCase.transformToEntity (pd : String → Option Int)
    (shopName : String) (dto : WebhookInventoryLevelDTO) : Except String InventoryLevel :=
  match pd dto.updated_at with
  | none => .error ("Invalid date format for updated_at: " ++ dto.updated_at)
  | some t =>
      InventoryLevel.create shopName dto.inventory_item_id dto.location_id dto.available t
        (some dto.inventory_item_id)

/-- `ProcessInventoryWebhookUseCase.transformToEntities` (src/README.md, lines 420-441):
`dtos.map` evaluates in order and the first `throw` aborts the whole transform. -/
def ProcessInventoryWebhookUseCase.transformToEntities (pd : String → Option Int)
    (shopName : String) : List WebhookInventoryLevelDTO → Except String (List InventoryLevel)
  | [] => .ok []
  | dto :: rest =>
    match ProcessInventoryWebhookUseCase.transformToEntity pd shopName dto with
    | .error e => .error e
    | .ok inv =>
      match ProcessInventoryWebhookUseCase.transformToEntities pd shopName rest with
      | .error e => .error e
      | .ok invs => .ok (inv :: invs)

/-- The individual-save fallback loop of `saveInventories` (src/README.md, lines
452-465), started at index `i`: returns the number of successful saves, the
`errors` entries pushed (in push order), and the `save` calls issued (in call
order). `saveOutcome j` is the outcome of the save call for batch index `j`. -/
def ProcessInventoryWebhookUseCase.fallbackSaves (saveOutcome : Nat → Option String) :
    Nat → List InventoryLevel → Nat × List SaveError × List StoreCall
  | _, [] => (0, [], [])
  | i, item :: rest =>
    let r := ProcessInventoryWebhookUseCase.fallbackSaves saveOutcome (i + 1) rest
    match saveOutcome i with
    | none => (r.1 + 1, r.2.1, .save item :: r.2.2)
    | some msg => (r.1, ⟨i, msg⟩ :: r.2.1, .save item :: r.2.2)

/-- `ProcessInventoryWebhookUseCase.saveInventories` (src/README.md, lines 443-472).
`bulkOutcome` is the behaviour of the injected repository's `saveMany` call
(`some msg` models a rejection with message `msg`); on rejection the individual
fallback loop runs. The issued store calls are returned alongside the response. -/
def ProcessInventoryWebhookUseCase.saveInventories (bulkOutcome : Option String)
    (saveOutcome : Nat → Option String) (inventories : List InventoryLevel) :
    ProcessInventoryWebhookResponse × List StoreCall :=
  let r :=
    match bulkOutcome with
    | none => (inventories.length, ([] : List SaveError), ([] : List StoreCall))
    | some _ => ProcessInventoryWebhookUseCase.fallbackSaves saveOutcome 0 inventories
  (⟨r.2.1.length == 0, r.1, r.2.1⟩, .saveMany inventories :: r.2.2)

/-- `ProcessInventoryWebhookUseCase.execute` (multi-item variant, src/README.md,
lines 383-418, inlining `validateRequest`): verify the signature, validate the
request shape, transform, then persist. The `Array.isArray` guard is always
satisfied by a `List` and leaves no residue. A thrown error is an
`Except.error`; the store-call trace is empty on every thrown path. -/
def ProcessInventoryWebhookUseCase.execute (pd : String → Option Int)
    (validate : String → Option String → Bool) (bulkOutcome : Option String)
    (saveOutcome : Nat → Option String) (request : ProcessInventoryWebhookRequest) :
    Except String ProcessInventoryWebhookResponse × List StoreCall :=
  if ¬ validate request.rawBody request.signature then (.error "Invalid webhook signature", [])
  else if request.shopName = "" ∨ jsTrim request.shopName = "" then (.error "Shop name is required", [])
  else if request.inventoryLevels.length = 0 then
    (.error "Inventory levels array cannot be empty", [])
  else
    match ProcessInventoryWebhookUseCase.transformToEntities pd request.shopName
        request.inventoryLevels with
    | .error e => (.error e, [])
    | .ok inventories =>
      let r := ProcessInventoryWebhookUseCase.saveInventories bulkOutcome saveOutcome inventories
      (.ok r.1, r.2)

/-! ## WebhookPayloadParser header extraction -/

/-- JavaScript `a || b` over header lookups: `undefined` (`none`) and the empty
string are falsy, every other string is truthy; the right operand is returned
as-is when the left is falsy. -/
def jsOr (a b : Option String) : Option String :=
  match a with
  | some v => if v = "" then b else some v
  | none => b

/-- The truthy value of a header lookup, if any. -/
def truthyVal (a : Option String) : Option String :=
  match a with
  | some v => if v = "" then none else some v
  | none => none

/-- `WebhookPayloadParser.extractShopName` (WebhookPayloadParser.ts, lines 79-90):
`headers["x-shopify-shop-domain"] || headers["X-Shopify-Shop-Domain"] ||
headers["x-shopify-shop-api-call-limit"]`, then `throw` when the result is falsy. -/
def WebhookPayloadParser.extractShopName (headers : String → Option String) :
    Except String String :=
  match truthyVal (jsOr (jsOr (headers "x-shopify-shop-domain")
      (headers "X-Shopify-Shop-Domain")) (headers "x-shopify-shop-api-call-limit")) with
  | none => .error "Unable to extract shop name from headers"
  | some v => .ok v

/-- `WebhookPayloadParser.extractTopic` (WebhookPayloadParser.ts, lines 95-101):
`headers["x-shopify-topic"] || headers["X-Shopify-Topic"] || "unknown"`. -/
def WebhookPayloadParser.extractTopic (headers : String → Option String) : String :=
  (jsOr (jsOr (headers "x-shopify-topic") (headers "X-Shopify-Topic")) (some "unknown")).getD ""

/-- `WebhookPayloadParser.extractSignature` (WebhookPayloadParser.ts, lines 106-111):
`headers["x-shopify-hmac-sha256"] || headers["X-Shopify-Hmac-SHA256"]`; the raw
right operand (possibly `undefined` or `""`) is returned when the left is falsy. -/
def WebhookPayloadParser.extractSignature (headers : String → Option String) : Option String :=
  jsOr (headers "x-shopify-hmac-sha256") (headers "X-Shopify-Hmac-SHA256")

/-! ## Lambda handler -/

/-- Whether `pat` occurs as a substring of the character list (JavaScript
`String.prototype.includes`). -/
def listContainsSub (pat : List Char) : List Char → Bool
  | [] => pat.isEmpty
  | c :: rest => pat.isPrefixOf (c :: rest) || listContainsSub pat rest

/-- JavaScript `s.includes(pat)`. -/
def strContains (s pat : String) : Bool := listContainsSub pat.data s.data

/-- The JSON body of a handler response: `{message, processed}` on success,
`{error, details}` on failure, with the 207 branch carrying the whole use-case
result (plus `partialSuccess: true`) as its details. -/
inductive HandlerBody where
  | success (message : String) (processed : Nat)
  | failure (error : String) (details : Option String)
  | failureWithResult (error : String) (result : ProcessInventoryWebhookResponse)
deriving DecidableEq

/-- A transport response: status code and JSON body. -/
structure HandlerResponse where
  statusCode : Nat
  body : HandlerBody
deriving DecidableEq

/-- The `catch` block of `handler` (handler.ts, lines 106-130): a message
containing `"signature"` maps to 401, else one containing `"Invalid"` maps to
400 with a `"Bad request: "` prefix, anything else to 500 carrying the message
as details. -/
def handlerCatch (msg : String) : HandlerResponse :=
  if strContains msg "signature" then ⟨401, .failure "Unauthorized: Invalid signature" none⟩
  else if strContains msg "Invalid" then ⟨400, .failure ("Bad request: " ++ msg) none⟩
  else ⟨500, .failure "Internal server error" (some msg)⟩

/-- `handler` (handler.ts, lines 34-131). `parseLevels` stands for
`WebhookPayloadParser.parseInventoryLevels`, whose `JSON.parse` layer is a
platform function; a `.error` value is the message it throws. Alongside the
response, the store calls issued by the use case are returned; every path that
returns before `useCase.execute` has an empty trace. -/
def handler (pd : String → Option Int)
    (parseLevels : String → Except String (List WebhookInventoryLevelDTO))
    (validate : String → Option String → Bool) (bulkOutcome : Option String)
    (saveOutcome : Nat → Option String) (body : String) (headers : String → Option String) :
    HandlerResponse × List StoreCall :=
  if body = "" then (⟨400, .failure "Empty request body" none⟩, [])
  else
    match parseLevels body with
    | .error e => (handlerCatch e, [])
    | .ok inventoryLevels =>
      match WebhookPayloadParser.extractShopName headers with
      | .error e => (handlerCatch e, [])
      | .ok shopName =>
        if WebhookPayloadParser.extractTopic headers ≠ "inventory_levels/update" then
          (⟨200, .success "Webhook type not supported" 0⟩, [])
        else
          match ProcessInventoryWebhookUseCase.execute pd validate bulkOutcome saveOutcome
              ⟨shopName, body, WebhookPayloadParser.extractSignature headers, inventoryLevels⟩ with
          | (.error e, calls) => (handlerCatch e, calls)
          | (.ok result, calls) =>
            if ¬ result.success ∧ 0 < result.errors.length then
              (⟨207, .failureWithResult "Partial success: some inventory updates failed" result⟩,
                calls)
            else (⟨200, .success "Webhook processed successfully" result.processedCount⟩, calls)

/-! ## Concrete sample data for witnesses and counterexamples -/

/-- A date parser recognising the one timestamp used by the sample data, as
`new Date("2024-01-15T10:30:00Z").getTime()` resolves it. -/
def demoDateParse : String → Option Int :=
  fun s => if s = "2024-01-15T10:30:00Z" then some 1705314600000 else none

/-- A well-formed sample DTO. -/
def demoDTO : WebhookInventoryLevelDTO := ⟨12345, 789, 50, "2024-01-15T10:30:00Z"⟩

/-- A sample DTO with an unparsable timestamp. -/
def demoBadDateDTO : WebhookInventoryLevelDTO := ⟨12345, 789, 50, "invalid-date"⟩

/-- A sample DTO with `inventory_item_id = 0`. -/
def demoZeroVariantDTO : WebhookInventoryLevelDTO := ⟨0, 789, 50, "2024-01-15T10:30:00Z"⟩

/-- A sample DTO with `location_id = 0`. -/
def demoZeroLocationDTO : WebhookInventoryLevelDTO := ⟨12345, 0, 50, "2024-01-15T10:30:00Z"⟩

/-- A sample DTO with negative available stock. -/
def demoNegativeAvailableDTO : WebhookInventoryLevelDTO := ⟨12345, 789, -1, "2024-01-15T10:30:00Z"⟩

/-- A sample validated entity. -/
def demoInventoryA : InventoryLevel := ⟨"myshop", 12345, 789, 50, 1705314600000, some 12345⟩

/-- A second sample validated entity. -/
def demoInventoryB : InventoryLevel := ⟨"myshop", 12346, 790, 100, 1705314600000, some 12346⟩

/-- A third sample validated entity. -/
def demoInventoryC : InventoryLevel := ⟨"myshop", 12347, 791, 25, 1705314600000, some 12347⟩

/-- A three-item batch of validated entities. -/
def demoBatch : List InventoryLevel := [demoInventoryA, demoInventoryB, demoInventoryC]

/-- A store behaviour whose individual save fails exactly at batch index 1. -/
def demoSaveOutcome : Nat → Option String :=
  fun i => if i = 1 then some "Individual save failed" else none

/-- Headers carrying the recognized topic and a shop domain but no signature. -/
def demoHeaders : String → Option String := fun k =>
  if k = "x-shopify-topic" then some "inventory_levels/update"
  else if k = "x-shopify-shop-domain" then some "myshop.example" else none

/-- Headers carrying an unrecognized topic and a shop domain. -/
def wrongTopicHeaders : String → Option String := fun k =>
  if k = "x-shopify-topic" then some "orders/create"
  else if k = "x-shopify-shop-domain" then some "myshop.example" else none

/-- Headers whose only shop-domain variant is present with an empty value. -/
def emptyShopHeaders : String → Option String := fun k =>
  if k = "x-shopify-shop-domain" then some "" else none

/-- The behaviour of `parseInventoryLevels` on a body `JSON.parse` rejects
(for example `"not json"`): it throws `"Invalid JSON in webhook body"`. -/
def parseFailure : String → Except String (List WebhookInventoryLevelDTO) :=
  fun _ => .error "Invalid JSON in webhook body"

/-- The behaviour of `parseInventoryLevels` on a body whose JSON document holds
exactly the one well-formed sample record. -/
def demoParse : String → Except String (List WebhookInventoryLevelDTO) :=
  fun _ => .ok [demoDTO]

/-! ## Encoding lengths -/

/-- Base64 emits four characters per (partial) three-byte group. -/
theorem base64Chunks_length (l : List Nat) :
    (base64Chunks l).length = 4 * ((l.length + 2) / 3) := by
  induction l using base64Chunks.induct
  all_goals simp [base64Chunks, *]
  all_goals omega

/-- Hex emits two characters per byte. -/
theorem hexChunks_length (l : List Nat) : (hexChunks l).length = 2 * l.length := by
  induction l with
  | nil => simp [hexChunks]
  | cons b rest ih => simp [hexChunks, ih]; omega

/-- A final hash state serializes to exactly 32 bytes. -/
theorem digestBytes_length (s : Sha256State) : (digestBytes s).length = 32 := by
  simp [digestBytes, wordBytes]

/-- SHA-256 always emits a 32-byte digest. -/
theorem sha256_length (msg : List Nat) : (sha256 msg).length = 32 := by
  simp [sha256, digestBytes_length]

/-- HMAC-SHA256 always emits a 32-byte digest. -/
theorem hmacSha256_length (secret body : String) : (hmacSha256 secret body).length = 32 := by
  simp [hmacSha256, sha256_length]

/-- The base64 form of an HMAC-SHA256 digest has 44 characters. -/
theorem base64_hmac_data_length (secret body : String) :
    (base64Encode (hmacSha256 secret body)).data.length = 44 := by
  show (base64Chunks (hmacSha256 secret body)).length = 44
  rw [base64Chunks_length, hmacSha256_length]

/-- The base64 form of an HMAC-SHA256 digest is never the empty string. -/
theorem base64_hmac_ne_empty (secret body : String) :
    base64Encode (hmacSha256 secret body) ≠ "" := by
  intro h
  have h2 : (base64Encode (hmacSha256 secret body)).data.length = 0 := by rw [h]; rfl
  rw [base64_hmac_data_length] at h2
  exact absurd h2 (by omega)

/-! ## Signature verification (C5, C6) -/

/-- C5 (amended): `validate` returns `false` — and, being total, never throws —
when the signature is absent (`undefined` or the falsy empty string), when the
body is empty, or when the supplied signature differs from the base64-encoded
HMAC-SHA256 of the body under the shared secret; and it returns `true` exactly
when the body is non-empty and the supplied signature equals that computed
base64 string. -/
theorem validate_spec (secret body : String) (sig : Option String) :
    (sig = none → ShopifyWebhookValidator.validate secret body sig = false) ∧
    (body = "" → ShopifyWebhookValidator.validate secret body sig = false) ∧
    (∀ s, sig = some s → s ≠ base64Encode (hmacSha256 secret body) →
      ShopifyWebhookValidator.validate secret body sig = false) ∧
    (ShopifyWebhookValidator.validate secret body sig = true ↔
      body ≠ "" ∧ sig = some (base64Encode (hmacSha256 secret body))) := by
  refine ⟨?_, ?_, ?_, ?_⟩
  · rintro rfl; rfl
  · rintro rfl
    cases sig with
    | none => rfl
    | some s =>
      simp only [ShopifyWebhookValidator.validate]
      split
      · rfl
      · simp only [if_true]
  · rintro s rfl hne
    simp only [ShopifyWebhookValidator.validate]
    split
    · rfl
    · split
      · rfl
      · rw [beq_eq_false_iff_ne]
        intro h
        exact absurd h.symm hne
  · cases sig with
    | none =>
      constructor
      · intro h; exact absurd h Bool.false_ne_true
      · rintro ⟨_, h⟩; exact Option.noConfusion h
    | some s =>
      simp only [ShopifyWebhookValidator.validate]
      by_cases hs : s = ""
      · subst hs
        rw [if_pos rfl]
        constructor
        · intro h; exact absurd h Bool.false_ne_true
        · rintro ⟨hb, hsig⟩
          exact absurd (Option.some.inj hsig).symm (base64_hmac_ne_empty secret body)
      · rw [if_neg hs]
        by_cases hb : body = ""
        · rw [if_pos hb]
          constructor
          · intro h; exact absurd h Bool.false_ne_true
          · rintro ⟨hb', _⟩; exact absurd hb hb'
        · rw [if_neg hb]
          constructor
          · intro h
            exact ⟨hb, (congrArg some (eq_of_beq h)).symm⟩
          · rintro ⟨_, hsig⟩
            rw [Option.some.inj hsig]
            exact beq_self_eq_true _

/-- An empty body is rejected regardless of the supplied signature. -/
theorem validate_empty_body (secret : String) (sig : Option String) :
    ShopifyWebhookValidator.validate secret "" sig = false := by
  cases sig with
  | none => rfl
  | some s =>
    simp only [ShopifyWebhookValidator.validate]
    split
    · rfl
    · simp only [if_true]

/-- C5 counterexample: with an empty body, the supplied signature can equal the
computed base64 HMAC string and `validate` still returns `false`, so "returns
true exactly when the supplied signature equals that computed base64 string"
fails at `body = ""`. -/
theorem validate_true_iff_match_cex :
    ¬ (ShopifyWebhookValidator.validate "secret" ""
        (some (base64Encode (hmacSha256 "secret" ""))) = true ↔
      some (base64Encode (hmacSha256 "secret" "")) =
        some (base64Encode (hmacSha256 "secret" ""))) := by
  intro hiff
  exact Bool.false_ne_true ((validate_empty_body "secret" _).symm.trans (hiff.mpr rfl))

/-- C5 witness: the four clauses of `validate_spec` at concrete inputs. -/
theorem validate_spec_witness :
    ShopifyWebhookValidator.validate "k" "body" none = false ∧
    ShopifyWebhookValidator.validate "k" "" (some "sig") = false ∧
    ShopifyWebhookValidator.validate "k" "body" (some "wrong!") = false ∧
    ShopifyWebhookValidator.validate "k" "body"
      (some (base64Encode (hmacSha256 "k" "body"))) = true :=
  ⟨(validate_spec "k" "body" none).1 rfl,
   (validate_spec "k" "" (some "sig")).2.1 rfl,
   (validate_spec "k" "body" (some "wrong!")).2.2.1 "wrong!" rfl (fun h => by
      have h2 : ("wrong!" : String).data.length =
          (base64Encode (hmacSha256 "k" "body")).data.length := by rw [h]
      rw [base64_hmac_data_length] at h2
      exact absurd h2 (by decide)),
   (validate_spec "k" "body" _).2.2.2.mpr ⟨by decide, rfl⟩⟩

/-- C6: a signature supplied as the lowercase hex digest of the correct
HMAC-SHA256 of the body is always rejected, because the comparison is between
the base64 string (44 characters for a 32-byte digest) and the hex string
(64 characters), which can never be equal. -/
theorem validate_rejects_hex_signature (secret body : String) (hb : body ≠ "") :
    ShopifyWebhookValidator.validate secret body
      (some (hexEncode (hmacSha256 secret body))) = false := by
  have hhex : (hexEncode (hmacSha256 secret body)).data.length = 64 := by
    show (hexChunks (hmacSha256 secret body)).length = 64
    rw [hexChunks_length, hmacSha256_length]
  have hne : hexEncode (hmacSha256 secret body) ≠ "" := by
    intro h
    have h2 : (hexEncode (hmacSha256 secret body)).data.length = 0 := by rw [h]; rfl
    rw [hhex] at h2
    exact absurd h2 (by omega)
  have hneq : base64Encode (hmacSha256 secret body) ≠ hexEncode (hmacSha256 secret body) := by
    intro h
    have h2 : (base64Encode (hmacSha256 secret body)).data.length =
        (hexEncode (hmacSha256 secret body)).data.length := by rw [h]
    rw [base64_hmac_data_length, hhex] at h2
    exact absurd h2 (by omega)
  simp only [ShopifyWebhookValidator.validate]
  rw [if_neg hne, if_neg hb, beq_eq_false_iff_ne]
  exact hneq

/-- C6 witness: the hex-encoded digest of a concrete body is rejected. -/
theorem validate_rejects_hex_signature_witness :
    ("x" : String) ≠ "" ∧
    ShopifyWebhookValidator.validate "k" "x" (some (hexEncode (hmacSha256 "k" "x"))) = false :=
  ⟨by decide, validate_rejects_hex_signature "k" "x" (by decide)⟩

/-! ## InventoryLevel construction (C3, C4, C10) -/

/-- Trimming the empty string yields the empty string. -/
theorem trim_of_empty : jsTrim "" = "" := rfl

/-- The constructor's blank test `!shopName || shopName.trim() === ""` is
equivalent to blankness after trimming. -/
theorem blank_iff (s : String) : (s = "" ∨ jsTrim s = "") ↔ jsTrim s = "" :=
  ⟨fun h => h.elim (fun h' => h' ▸ trim_of_empty) id, Or.inr⟩

/-- Characterization of successful entity construction: it succeeds exactly on
field values satisfying every invariant, and then returns precisely the record
of those fields. -/
theorem InventoryLevel.create_ok_iff (s : String) (v l a t : Int) (it : Option Int)
    (inv : InventoryLevel) :
    InventoryLevel.create s v l a t it = .ok inv ↔
      jsTrim s ≠ "" ∧ 0 < v ∧ 0 < l ∧ 0 ≤ a ∧ inv = ⟨s, v, l, a, t, it⟩ := by
  simp only [InventoryLevel.create]
  split_ifs with h1 h2 h3 h4
  · constructor
    · intro h; simp at h
    · rintro ⟨hs, -, -, -, -⟩; exact hs ((blank_iff s).mp h1)
  · constructor
    · intro h; simp at h
    · rintro ⟨-, hv, -, -, -⟩; omega
  · constructor
    · intro h; simp at h
    · rintro ⟨-, -, hl, -, -⟩; omega
  · constructor
    · intro h; simp at h
    · rintro ⟨-, -, -, ha, -⟩; omega
  · constructor
    · intro h
      exact ⟨fun hh => h1 (Or.inr hh), by omega, by omega, by omega, (Except.ok.inj h).symm⟩
    · rintro ⟨-, -, -, -, rfl⟩; rfl

/-- A blank shop name fails construction with the shop-name error. -/
theorem InventoryLevel.create_blank (s : String) (v l a t : Int) (it : Option Int)
    (h : jsTrim s = "") : InventoryLevel.create s v l a t it = .error "Shop name is required" := by
  simp only [InventoryLevel.create]
  rw [if_pos (Or.inr h)]

/-- A non-positive variant id fails construction with the variant error. -/
theorem InventoryLevel.create_bad_variant (s : String) (v l a t : Int) (it : Option Int)
    (hs : jsTrim s ≠ "") (hv : v ≤ 0) :
    InventoryLevel.create s v l a t it = .error "Variant ID must be positive" := by
  simp only [InventoryLevel.create]
  rw [if_neg (fun hh => hs ((blank_iff s).mp hh)), if_pos hv]

/-- A non-positive location id fails construction with the location error. -/
theorem InventoryLevel.create_bad_location (s : String) (v l a t : Int) (it : Option Int)
    (hs : jsTrim s ≠ "") (hv : 0 < v) (hl : l ≤ 0) :
    InventoryLevel.create s v l a t it = .error "Location ID must be positive" := by
  simp only [InventoryLevel.create]
  rw [if_neg (fun hh => hs ((blank_iff s).mp hh)), if_neg (by omega), if_pos hl]

/-- Negative available stock fails construction with the stock error. -/
theorem InventoryLevel.create_bad_available (s : String) (v l a t : Int) (it : Option Int)
    (hs : jsTrim s ≠ "") (hv : 0 < v) (hl : 0 < l) (ha : a < 0) :
    InventoryLevel.create s v l a t it = .error "Available stock cannot be negative" := by
  simp only [InventoryLevel.create]
  rw [if_neg (fun hh => hs ((blank_iff s).mp hh)), if_neg (by omega), if_neg (by omega),
    if_pos ha]

/-- An unparsable `updated_at` aborts the transform with the date error. -/
theorem transformToEntity_bad_date (pd : String → Option Int) (shop : String)
    (dto : WebhookInventoryLevelDTO) (h : pd dto.updated_at = none) :
    ProcessInventoryWebhookUseCase.transformToEntity pd shop dto =
      .error ("Invalid date format for updated_at: " ++ dto.updated_at) := by
  simp only [ProcessInventoryWebhookUseCase.transformToEntity, h]

/-- On a parsable `updated_at` the transform defers to the entity constructor. -/
theorem transformToEntity_eq_create (pd : String → Option Int) (shop : String)
    (dto : WebhookInventoryLevelDTO) (t : Int) (h : pd dto.updated_at = some t) :
    ProcessInventoryWebhookUseCase.transformToEntity pd shop dto =
      InventoryLevel.create shop dto.inventory_item_id dto.location_id dto.available t
        (some dto.inventory_item_id) := by
  simp only [ProcessInventoryWebhookUseCase.transformToEntity, h]

/-- C3: constructing an inventory record from a DTO fails with the
correspondingly named validation error for each violated invariant — an
unparsable `updated_at`, a blank shop name, a non-positive variant id (the
DTO's `inventory_item_id`), a non-positive location id, or negative available
stock, each stated under the checks that precede it in source order — any
violated invariant prevents an entity from being produced, and any produced
entity satisfies every invariant. -/
theorem transformToEntity_validation_errors (pd : String → Option Int) (shopName : String)
    (dto : WebhookInventoryLevelDTO) :
    (pd dto.updated_at = none →
      ProcessInventoryWebhookUseCase.transformToEntity pd shopName dto =
        .error ("Invalid date format for updated_at: " ++ dto.updated_at)) ∧
    (∀ t, pd dto.updated_at = some t → jsTrim shopName = "" →
      ProcessInventoryWebhookUseCase.transformToEntity pd shopName dto =
        .error "Shop name is required") ∧
    (∀ t, pd dto.updated_at = some t → jsTrim shopName ≠ "" → dto.inventory_item_id ≤ 0 →
      ProcessInventoryWebhookUseCase.transformToEntity pd shopName dto =
        .error "Variant ID must be positive") ∧
    (∀ t, pd dto.updated_at = some t → jsTrim shopName ≠ "" → 0 < dto.inventory_item_id →
      dto.location_id ≤ 0 →
      ProcessInventoryWebhookUseCase.transformToEntity pd shopName dto =
        .error "Location ID must be positive") ∧
    (∀ t, pd dto.updated_at = some t → jsTrim shopName ≠ "" → 0 < dto.inventory_item_id →
      0 < dto.location_id → dto.available < 0 →
      ProcessInventoryWebhookUseCase.transformToEntity pd shopName dto =
        .error "Available stock cannot be negative") ∧
    ((dto.available < 0 ∨ dto.inventory_item_id ≤ 0 ∨ dto.location_id ≤ 0 ∨
        pd dto.updated_at = none ∨ jsTrim shopName = "") →
      ∀ inv, ProcessInventoryWebhookUseCase.transformToEntity pd shopName dto ≠ .ok inv) ∧
    (∀ inv, ProcessInventoryWebhookUseCase.transformToEntity pd shopName dto = .ok inv →
      inv.shopName = shopName ∧ jsTrim inv.shopName ≠ "" ∧ 0 < inv.variantId ∧
        0 < inv.locationId ∧ 0 ≤ inv.available ∧ pd dto.updated_at = some inv.updatedAt) := by
  refine ⟨transformToEntity_bad_date pd shopName dto, ?_, ?_, ?_, ?_, ?_, ?_⟩
  · intro t ht hs
    rw [transformToEntity_eq_create pd shopName dto t ht]
    exact InventoryLevel.create_blank _ _ _ _ _ _ hs
  · intro t ht hs hv
    rw [transformToEntity_eq_create pd shopName dto t ht]
    exact InventoryLevel.create_bad_variant _ _ _ _ _ _ hs hv
  · intro t ht hs hv hl
    rw [transformToEntity_eq_create pd shopName dto t ht]
    exact InventoryLevel.create_bad_location _ _ _ _ _ _ hs hv hl
  · intro t ht hs hv hl ha
    rw [transformToEntity_eq_create pd shopName dto t ht]
    exact InventoryLevel.create_bad_available _ _ _ _ _ _ hs hv hl ha
  · intro hbad inv h
    cases hpd : pd dto.updated_at with
    | none =>
      rw [transformToEntity_bad_date pd shopName dto hpd] at h
      exact Except.noConfusion h
    | some t =>
      rw [transformToEntity_eq_create pd shopName dto t hpd] at h
      obtain ⟨hs, hv, hl, ha, -⟩ := (InventoryLevel.create_ok_iff _ _ _ _ _ _ _).mp h
      rcases hbad with hb | hb | hb | hb | hb
      · omega
      · omega
      · omega
      · rw [hpd] at hb; exact Option.noConfusion hb
      · exact hs hb
  · intro inv h
    cases hpd : pd dto.updated_at with
    | none =>
      rw [transformToEntity_bad_date pd shopName dto hpd] at h
      exact Except.noConfusion h
    | some t =>
      rw [transformToEntity_eq_create pd shopName dto t hpd] at h
      obtain ⟨hs, hv, hl, ha, heq⟩ := (InventoryLevel.create_ok_iff _ _ _ _ _ _ _).mp h
      subst heq
      exact ⟨rfl, hs, hv, hl, ha, rfl⟩

/-- C3 witness: each named validation error at a concrete input, and the
invariants of a concretely produced entity. -/
theorem transformToEntity_validation_errors_witness :
    ProcessInventoryWebhookUseCase.transformToEntity demoDateParse "myshop" demoBadDateDTO =
      .error ("Invalid date format for updated_at: " ++ demoBadDateDTO.updated_at) ∧
    ProcessInventoryWebhookUseCase.transformToEntity demoDateParse "   " demoDTO =
      .error "Shop name is required" ∧
    ProcessInventoryWebhookUseCase.transformToEntity demoDateParse "myshop" demoZeroVariantDTO =
      .error "Variant ID must be positive" ∧
    ProcessInventoryWebhookUseCase.transformToEntity demoDateParse "myshop" demoZeroLocationDTO =
      .error "Location ID must be positive" ∧
    ProcessInventoryWebhookUseCase.transformToEntity demoDateParse "myshop"
      demoNegativeAvailableDTO = .error "Available stock cannot be negative" ∧
    (∀ inv, ProcessInventoryWebhookUseCase.transformToEntity demoDateParse "" demoDTO ≠
      .ok inv) :=
  ⟨(transformToEntity_validation_errors demoDateParse "myshop" demoBadDateDTO).1 (by decide),
   (transformToEntity_validation_errors demoDateParse "   " demoDTO).2.1
     1705314600000 (by decide) (by decide),
   (transformToEntity_validation_errors demoDateParse "myshop" demoZeroVariantDTO).2.2.1
     1705314600000 (by decide) (by decide) (by decide),
   (transformToEntity_validation_errors demoDateParse "myshop" demoZeroLocationDTO).2.2.2.1
     1705314600000 (by decide) (by decide) (by decide) (by decide),
   (transformToEntity_validation_errors demoDateParse "myshop"
     demoNegativeAvailableDTO).2.2.2.2.1 1705314600000 (by decide) (by decide) (by decide)
     (by decide) (by decide),
   (transformToEntity_validation_errors demoDateParse "" demoDTO).2.2.2.2.2.1
     (Or.inr (Or.inr (Or.inr (Or.inr (by decide)))))⟩

/-- C4: for every field combination with a positive variant id, a positive
location id, non-negative available stock (including the `available = 0`
boundary), a parsed timestamp value, and a non-blank shop name, construction
succeeds with exactly those fields, the composite key is
`shopName ++ "#" ++ variantId` and the location key is the decimal string of
`locationId`. -/
theorem inventoryLevel_create_valid_fields (shopName : String)
    (variantId locationId available updatedAt : Int) (inventoryItemId : Option Int)
    (hs : jsTrim shopName ≠ "") (hv : 0 < variantId) (hl : 0 < locationId)
    (ha : 0 ≤ available) :
    InventoryLevel.create shopName variantId locationId available updatedAt inventoryItemId =
      .ok ⟨shopName, variantId, locationId, available, updatedAt, inventoryItemId⟩ ∧
    (InventoryLevel.mk shopName variantId locationId available updatedAt
      inventoryItemId).getCompositeKey = shopName ++ "#" ++ toString variantId ∧
    (InventoryLevel.mk shopName variantId locationId available updatedAt
      inventoryItemId).getLocationKey = toString locationId :=
  ⟨(InventoryLevel.create_ok_iff _ _ _ _ _ _ _).mpr ⟨hs, hv, hl, ha, rfl⟩, rfl, rfl⟩

/-- C4 witness: construction at the `available = 0` boundary, with the derived
keys fully evaluated. -/
theorem inventoryLevel_create_valid_fields_witness :
    jsTrim "myshop" ≠ "" ∧ (0 : Int) < 12345 ∧ (0 : Int) < 789 ∧ (0 : Int) ≤ 0 ∧
    (InventoryLevel.create "myshop" 12345 789 0 1705314600000 (some 12345) =
        .ok ⟨"myshop", 12345, 789, 0, 1705314600000, some 12345⟩ ∧
      (InventoryLevel.mk "myshop" 12345 789 0 1705314600000 (some 12345)).getCompositeKey =
        "myshop" ++ "#" ++ toString (12345 : Int) ∧
      (InventoryLevel.mk "myshop" 12345 789 0 1705314600000 (some 12345)).getLocationKey =
        toString (789 : Int)) ∧
    (InventoryLevel.mk "myshop" 12345 789 0 1705314600000 (some 12345)).getCompositeKey =
      "myshop#12345" ∧
    (InventoryLevel.mk "myshop" 12345 789 0 1705314600000 (some 12345)).getLocationKey =
      "789" :=
  ⟨by decide, by decide, by decide, by decide,
   inventoryLevel_create_valid_fields "myshop" 12345 789 0 1705314600000 (some 12345)
     (by decide) (by decide) (by decide) (by decide),
   by decide, by decide⟩

/-- C10: when the transform succeeds, each produced entity takes both its
`variantId` and its `inventoryItemId` from the DTO's `inventory_item_id` (the
wire payload has no separate variant identifier), so `variantId` always equals
`inventoryItemId` and the composite key is
`shopName ++ "#" ++ inventory_item_id`. -/
theorem transformToEntities_variant_eq_item_id (pd : String → Option Int) (shop : String)
    (dtos : List WebhookInventoryLevelDTO) (es : List InventoryLevel)
    (h : ProcessInventoryWebhookUseCase.transformToEntities pd shop dtos = .ok es) :
    es.length = dtos.length ∧
    ∀ i (hi : i < es.length) (hj : i < dtos.length),
      (es.get ⟨i, hi⟩).variantId = (dtos.get ⟨i, hj⟩).inventory_item_id ∧
      (es.get ⟨i, hi⟩).inventoryItemId = some ((dtos.get ⟨i, hj⟩).inventory_item_id) ∧
      (es.get ⟨i, hi⟩).inventoryItemId = some ((es.get ⟨i, hi⟩).variantId) ∧
      (es.get ⟨i, hi⟩).getCompositeKey =
        shop ++ "#" ++ toString ((dtos.get ⟨i, hj⟩).inventory_item_id) := by
  induction dtos generalizing es with
  | nil =>
    simp only [ProcessInventoryWebhookUseCase.transformToEntities] at h
    injection h with h2
    subst h2
    exact ⟨rfl, fun i hi hj => absurd hi (by simp)⟩
  | cons dto rest ih =>
    simp only [ProcessInventoryWebhookUseCase.transformToEntities] at h
    cases hte : ProcessInventoryWebhookUseCase.transformToEntity pd shop dto with
    | error e => rw [hte] at h; simp at h
    | ok inv =>
      rw [hte] at h
      cases hrest : ProcessInventoryWebhookUseCase.transformToEntities pd shop rest with
      | error e => rw [hrest] at h; simp at h
      | ok invs =>
        rw [hrest] at h
        injection h with h2
        subst h2
        obtain ⟨hlen, hall⟩ := ih invs hrest
        cases hpd : pd dto.updated_at with
        | none =>
          rw [transformToEntity_bad_date pd shop dto hpd] at hte
          simp at hte
        | some t =>
          rw [transformToEntity_eq_create pd shop dto t hpd] at hte
          obtain ⟨-, -, -, -, heq⟩ := (InventoryLevel.create_ok_iff _ _ _ _ _ _ _).mp hte
          subst heq
          refine ⟨by simp [hlen], ?_⟩
          intro i hi hj
          cases i with
          | zero => exact ⟨rfl, rfl, rfl, rfl⟩
          | succ n => exact hall n (by simpa using hi) (by simpa using hj)

/-- C10 witness: the transform of the one sample DTO, with the resulting
entity's variant id, external item id and composite key spelled out. -/
theorem transformToEntities_variant_eq_item_id_witness :
    ([(⟨"myshop", 12345, 789, 50, 1705314600000, some 12345⟩ : InventoryLevel)]).length =
      ([demoDTO]).length ∧
    ∀ i (hi : i <
        ([(⟨"myshop", 12345, 789, 50, 1705314600000, some 12345⟩ : InventoryLevel)]).length)
      (hj : i < ([demoDTO]).length),
      (([(⟨"myshop", 12345, 789, 50, 1705314600000, some 12345⟩ : InventoryLevel)]).get
          ⟨i, hi⟩).variantId = (([demoDTO]).get ⟨i, hj⟩).inventory_item_id ∧
      (([(⟨"myshop", 12345, 789, 50, 1705314600000, some 12345⟩ : InventoryLevel)]).get
          ⟨i, hi⟩).inventoryItemId = some ((([demoDTO]).get ⟨i, hj⟩).inventory_item_id) ∧
      (([(⟨"myshop", 12345, 789, 50, 1705314600000, some 12345⟩ : InventoryLevel)]).get
          ⟨i, hi⟩).inventoryItemId =
        some ((([(⟨"myshop", 12345, 789, 50, 1705314600000, some 12345⟩ :
          InventoryLevel)]).get ⟨i, hi⟩).variantId) ∧
      (([(⟨"myshop", 12345, 789, 50, 1705314600000, some 12345⟩ : InventoryLevel)]).get
          ⟨i, hi⟩).getCompositeKey =
        "myshop" ++ "#" ++ toString ((([demoDTO]).get ⟨i, hj⟩).inventory_item_id) :=
  transformToEntities_variant_eq_item_id demoDateParse "myshop" [demoDTO]
    [⟨"myshop", 12345, 789, 50, 1705314600000, some 12345⟩] (by rfl)

/-! ## Persistence fallback (C1, C9) -/

/-- The fallback loop issues exactly one individual `save` call per record, in
the original batch order. -/
theorem fallbackSaves_calls (so : Nat → Option String) (items : List InventoryLevel) :
    ∀ i, (ProcessInventoryWebhookUseCase.fallbackSaves so i items).2.2 =
      items.map StoreCall.save := by
  induction items with
  | nil => intro i; rfl
  | cons item rest ih =>
    intro i
    simp only [ProcessInventoryWebhookUseCase.fallbackSaves]
    cases so i <;> simp [ih]

/-- Successful and failing individual saves partition the batch. -/
theorem fallbackSaves_count_add_errors (so : Nat → Option String)
    (items : List InventoryLevel) :
    ∀ i, (ProcessInventoryWebhookUseCase.fallbackSaves so i items).1 +
      (ProcessInventoryWebhookUseCase.fallbackSaves so i items).2.1.length = items.length := by
  induction items with
  | nil => intro i; rfl
  | cons item rest ih =>
    intro i
    simp only [ProcessInventoryWebhookUseCase.fallbackSaves, List.length_cons]
    cases so i with
    | none =>
      have := ih (i + 1)
      simp only [List.length_cons] at this ⊢
      omega
    | some msg =>
      have := ih (i + 1)
      simp only [List.length_cons] at this ⊢
      omega

/-- The errors pushed by the fallback loop are exactly the failing indices, in
order, each carrying its index and the failure's message. -/
theorem fallbackSaves_errors (so : Nat → Option String) (items : List InventoryLevel) :
    ∀ i, (ProcessInventoryWebhookUseCase.fallbackSaves so i items).2.1 =
      (List.range' i items.length).filterMap
        (fun j => (so j).map fun m => SaveError.mk j m) := by
  induction items with
  | nil => intro i; rfl
  | cons item rest ih =>
    intro i
    simp only [ProcessInventoryWebhookUseCase.fallbackSaves, List.length_cons]
    have hr : List.range' i (rest.length + 1) = i :: List.range' (i + 1) rest.length := rfl
    rw [hr, List.filterMap_cons]
    cases hso : so i with
    | none => simp [hso, ih (i + 1)]
    | some msg => simp [hso, ih (i + 1)]

/-- The success count of the fallback loop is the number of indices whose
individual save succeeds. -/
theorem fallbackSaves_count (so : Nat → Option String) (items : List InventoryLevel) :
    ∀ i, (ProcessInventoryWebhookUseCase.fallbackSaves so i items).1 =
      ((List.range' i items.length).filter (fun j => (so j).isNone)).length := by
  induction items with
  | nil => intro i; rfl
  | cons item rest ih =>
    intro i
    simp only [ProcessInventoryWebhookUseCase.fallbackSaves, List.length_cons]
    have hr : List.range' i (rest.length + 1) = i :: List.range' (i + 1) rest.length := rfl
    rw [hr, List.filter_cons]
    cases hso : so i with
    | none => simp [hso, ih (i + 1)]
    | some msg => simp [hso, ih (i + 1)]

/-- Every error reported by the fallback loop started at `i` has its index in
`[i, i + batch size)`. -/
theorem fallbackSaves_bounds (so : Nat → Option String) (items : List InventoryLevel) :
    ∀ i e, e ∈ (ProcessInventoryWebhookUseCase.fallbackSaves so i items).2.1 →
      i ≤ e.index ∧ e.index < i + items.length := by
  induction items with
  | nil =>
    intro i e he
    simp [ProcessInventoryWebhookUseCase.fallbackSaves] at he
  | cons item rest ih =>
    intro i e
    simp only [ProcessInventoryWebhookUseCase.fallbackSaves, List.length_cons]
    cases so i with
    | none =>
      intro he
      have h2 := ih (i + 1) e he
      exact ⟨by omega, by omega⟩
    | some msg =>
      intro he
      rcases List.mem_cons.mp he with rfl | hmem
      · refine ⟨Nat.le_refl i, ?_⟩
        show i < i + (rest.length + 1)
        omega
      · have h2 := ih (i + 1) e hmem
        exact ⟨by omega, by omega⟩

/-- The error indices pushed by the fallback loop are strictly increasing. -/
theorem fallbackSaves_sorted (so : Nat → Option String) (items : List InventoryLevel) :
    ∀ i, List.Pairwise (fun a b : SaveError => a.index < b.index)
      (ProcessInventoryWebhookUseCase.fallbackSaves so i items).2.1 := by
  induction items with
  | nil => intro i; exact List.Pairwise.nil
  | cons item rest ih =>
    intro i
    simp only [ProcessInventoryWebhookUseCase.fallbackSaves]
    cases so i with
    | none => exact ih (i + 1)
    | some msg =>
      refine List.Pairwise.cons ?_ (ih (i + 1))
      intro e he
      have hb := fallbackSaves_bounds so rest (i + 1) e he
      have h1 := hb.1
      show i < e.index
      omega

/-- C1: when the bulk `saveMany` call fails on a non-empty batch, the pipeline
issues one individual `save` call per record in the original batch order; each
failing individual save is recorded as an error carrying its zero-based batch
index and the failure's message (in increasing index order), the processed
count is the number of succeeding saves, and `success` is the test
`errors.length == 0`. -/
theorem saveInventories_bulk_failure_fallback (bulkMsg : String) (so : Nat → Option String)
    (inventories : List InventoryLevel) (_hne : inventories ≠ []) :
    (ProcessInventoryWebhookUseCase.saveInventories (some bulkMsg) so inventories).2 =
      StoreCall.saveMany inventories :: inventories.map StoreCall.save ∧
    (ProcessInventoryWebhookUseCase.saveInventories (some bulkMsg) so inventories).1.errors =
      (List.range inventories.length).filterMap
        (fun j => (so j).map fun m => SaveError.mk j m) ∧
    (ProcessInventoryWebhookUseCase.saveInventories (some bulkMsg) so
        inventories).1.processedCount =
      ((List.range inventories.length).filter (fun j => (so j).isNone)).length ∧
    (ProcessInventoryWebhookUseCase.saveInventories (some bulkMsg) so inventories).1.success =
      ((ProcessInventoryWebhookUseCase.saveInventories (some bulkMsg) so
        inventories).1.errors.length == 0) := by
  refine ⟨?_, ?_, ?_, rfl⟩
  · simp only [ProcessInventoryWebhookUseCase.saveInventories]
    rw [fallbackSaves_calls so inventories 0]
  · simp only [ProcessInventoryWebhookUseCase.saveInventories]
    rw [fallbackSaves_errors so inventories 0, List.range_eq_range']
  · simp only [ProcessInventoryWebhookUseCase.saveInventories]
    rw [fallbackSaves_count so inventories 0, List.range_eq_range']

/-- C1 witness: the three-item batch with a failing bulk save and an individual
failure exactly at index 1 yields
`{success := false, processedCount := 2, errors := [{index := 1, reason := …}]}`. -/
theorem saveInventories_bulk_failure_fallback_witness :
    demoBatch ≠ [] ∧
    (ProcessInventoryWebhookUseCase.saveInventories (some "DynamoDB error") demoSaveOutcome
      demoBatch).1 =
      ⟨false, 2, [⟨1, "Individual save failed"⟩]⟩ ∧
    (ProcessInventoryWebhookUseCase.saveInventories (some "DynamoDB error") demoSaveOutcome
        demoBatch).2 =
      StoreCall.saveMany demoBatch :: demoBatch.map StoreCall.save ∧
    (ProcessInventoryWebhookUseCase.saveInventories (some "DynamoDB error") demoSaveOutcome
        demoBatch).1.errors =
      (List.range demoBatch.length).filterMap
        (fun j => (demoSaveOutcome j).map fun m => SaveError.mk j m) ∧
    (ProcessInventoryWebhookUseCase.saveInventories (some "DynamoDB error") demoSaveOutcome
        demoBatch).1.processedCount =
      ((List.range demoBatch.length).filter (fun j => (demoSaveOutcome j).isNone)).length ∧
    (ProcessInventoryWebhookUseCase.saveInventories (some "DynamoDB error") demoSaveOutcome
        demoBatch).1.success =
      ((ProcessInventoryWebhookUseCase.saveInventories (some "DynamoDB error") demoSaveOutcome
        demoBatch).1.errors.length == 0) := by
  have h := saveInventories_bulk_failure_fallback "DynamoDB error" demoSaveOutcome demoBatch
    (by simp [demoBatch])
  exact ⟨by simp [demoBatch], by rfl, h.1, h.2.1, h.2.2.1, h.2.2.2⟩

/-- C9: for every store behaviour, the persistence result satisfies
`processedCount + errors.length = batch size`, every reported error index lies
below the batch size, and the reported indices are strictly increasing. -/
theorem saveInventories_index_invariants (bulkOutcome : Option String)
    (so : Nat → Option String) (inventories : List InventoryLevel) :
    (ProcessInventoryWebhookUseCase.saveInventories bulkOutcome so
        inventories).1.processedCount +
      (ProcessInventoryWebhookUseCase.saveInventories bulkOutcome so
        inventories).1.errors.length = inventories.length ∧
    (ProcessInventoryWebhookUseCase.saveInventories bulkOutcome so inventories).1.errors.all
      (fun e => e.index < inventories.length) = true ∧
    List.Pairwise (fun a b : SaveError => a.index < b.index)
      (ProcessInventoryWebhookUseCase.saveInventories bulkOutcome so inventories).1.errors := by
  cases bulkOutcome with
  | none => exact ⟨by simp [ProcessInventoryWebhookUseCase.saveInventories], rfl,
      List.Pairwise.nil⟩
  | some msg =>
    refine ⟨?_, ?_, ?_⟩
    · exact fallbackSaves_count_add_errors so inventories 0
    · simp only [List.all_eq_true, decide_eq_true_eq]
      intro e he
      have hb := fallbackSaves_bounds so inventories 0 e he
      omega
    · exact fallbackSaves_sorted so inventories 0

/-! ## Header extraction (C8) -/

/-- JavaScript `a || b` keeps a truthy left operand. -/
theorem jsOr_of_truthy (a b : Option String) (v : String) (hv : v ≠ "") (ha : a = some v) :
    jsOr a b = some v := by
  subst ha
  simp [jsOr, hv]

/-- JavaScript `a || b` falls through to the right operand when the left is
falsy. -/
theorem jsOr_of_falsy (a b : Option String) (ha : truthyVal a = none) : jsOr a b = b := by
  cases a with
  | none => rfl
  | some v =>
    simp only [truthyVal] at ha
    by_cases hv : v = ""
    · simp [jsOr, hv]
    · rw [if_neg hv] at ha
      exact Option.noConfusion ha

/-- C8 (amended): the extraction helpers look up the fixed lowercase and
capitalized header-name variants in source order, with JavaScript truthiness —
`extractShopName` fails with its extraction error when no shop-domain variant
is present with a non-empty value and otherwise returns the value of the first
variant present with a non-empty value; `extractTopic` returns the literal
`"unknown"` instead of failing when no topic variant is present (with a
non-empty value); `extractSignature` returns an absent value instead of
failing when no signature variant is present. -/
theorem header_extraction_spec :
    (∀ h : String → Option String,
      truthyVal (h "x-shopify-shop-domain") = none →
      truthyVal (h "X-Shopify-Shop-Domain") = none →
      truthyVal (h "x-shopify-shop-api-call-limit") = none →
      WebhookPayloadParser.extractShopName h =
        .error "Unable to extract shop name from headers") ∧
    (∀ (h : String → Option String) v, v ≠ "" → h "x-shopify-shop-domain" = some v →
      WebhookPayloadParser.extractShopName h = .ok v) ∧
    (∀ (h : String → Option String) v, truthyVal (h "x-shopify-shop-domain") = none →
      v ≠ "" → h "X-Shopify-Shop-Domain" = some v →
      WebhookPayloadParser.extractShopName h = .ok v) ∧
    (∀ (h : String → Option String) v, truthyVal (h "x-shopify-shop-domain") = none →
      truthyVal (h "X-Shopify-Shop-Domain") = none → v ≠ "" →
      h "x-shopify-shop-api-call-limit" = some v →
      WebhookPayloadParser.extractShopName h = .ok v) ∧
    (∀ h : String → Option String, truthyVal (h "x-shopify-topic") = none →
      truthyVal (h "X-Shopify-Topic") = none →
      WebhookPayloadParser.extractTopic h = "unknown") ∧
    (∀ (h : String → Option String) v, v ≠ "" → h "x-shopify-topic" = some v →
      WebhookPayloadParser.extractTopic h = v) ∧
    (∀ (h : String → Option String) v, truthyVal (h "x-shopify-topic") = none → v ≠ "" →
      h "X-Shopify-Topic" = some v → WebhookPayloadParser.extractTopic h = v) ∧
    (∀ h : String → Option String, h "x-shopify-hmac-sha256" = none →
      h "X-Shopify-Hmac-SHA256" = none → WebhookPayloadParser.extractSignature h = none) ∧
    (∀ (h : String → Option String) v, v ≠ "" → h "x-shopify-hmac-sha256" = some v →
      WebhookPayloadParser.extractSignature h = some v) ∧
    (∀ (h : String → Option String) v, truthyVal (h "x-shopify-hmac-sha256") = none →
      h "X-Shopify-Hmac-SHA256" = some v →
      WebhookPayloadParser.extractSignature h = some v) := by
  refine ⟨?_, ?_, ?_, ?_, ?_, ?_, ?_, ?_, ?_, ?_⟩
  · intro h h1 h2 h3
    simp only [WebhookPayloadParser.extractShopName]
    rw [jsOr_of_falsy _ _ h1, jsOr_of_falsy _ _ h2, h3]
  · intro h v hv h1
    simp only [WebhookPayloadParser.extractShopName]
    rw [jsOr_of_truthy _ _ v hv (by rw [jsOr_of_truthy _ _ v hv h1])]
    simp [truthyVal, hv]
  · intro h v h1 hv h2
    simp only [WebhookPayloadParser.extractShopName]
    rw [jsOr_of_truthy _ _ v hv (by rw [jsOr_of_falsy _ _ h1]; exact h2)]
    simp [truthyVal, hv]
  · intro h v h1 h2 hv h3
    simp only [WebhookPayloadParser.extractShopName]
    rw [jsOr_of_falsy _ _ (by rw [jsOr_of_falsy _ _ h1]; exact h2), h3]
    simp [truthyVal, hv]
  · intro h h1 h2
    simp only [WebhookPayloadParser.extractTopic]
    rw [jsOr_of_falsy _ _ (by rw [jsOr_of_falsy _ _ h1]; exact h2)]
    rfl
  · intro h v hv h1
    simp only [WebhookPayloadParser.extractTopic]
    rw [jsOr_of_truthy _ _ v hv (jsOr_of_truthy _ _ v hv h1)]
    rfl
  · intro h v h1 hv h2
    simp only [WebhookPayloadParser.extractTopic]
    rw [jsOr_of_truthy _ _ v hv (by rw [jsOr_of_falsy _ _ h1]; exact h2)]
    rfl
  · intro h h1 h2
    simp only [WebhookPayloadParser.extractSignature]
    rw [jsOr_of_falsy _ _ (by simp [truthyVal, h1]), h2]
  · intro h v hv h1
    simp only [WebhookPayloadParser.extractSignature]
    exact jsOr_of_truthy _ _ v hv h1
  · intro h v h1 h2
    simp only [WebhookPayloadParser.extractSignature]
    rw [jsOr_of_falsy _ _ h1, h2]

/-- C8 counterexample: a headers map whose shop-domain variant is present but
carries the empty string makes `extractShopName` fail, although a recognized
variant is present — JavaScript truthiness skips falsy header values. -/
theorem extractShopName_empty_value_cex :
    emptyShopHeaders "x-shopify-shop-domain" = some "" ∧
    WebhookPayloadParser.extractShopName emptyShopHeaders =
      .error "Unable to extract shop name from headers" := by
  exact ⟨rfl, rfl⟩

/-- C8 witness: the helpers at concrete header maps. -/
theorem header_extraction_spec_witness :
    WebhookPayloadParser.extractShopName demoHeaders = .ok "myshop.example" ∧
    WebhookPayloadParser.extractTopic demoHeaders = "inventory_levels/update" ∧
    WebhookPayloadParser.extractTopic emptyShopHeaders = "unknown" ∧
    WebhookPayloadParser.extractSignature emptyShopHeaders = none :=
  ⟨header_extraction_spec.2.1 demoHeaders "myshop.example" (by decide) (by decide),
   header_extraction_spec.2.2.2.2.2.1 demoHeaders "inventory_levels/update" (by decide)
     (by decide),
   header_extraction_spec.2.2.2.2.1 emptyShopHeaders (by decide) (by decide),
   header_extraction_spec.2.2.2.2.2.2.2.1 emptyShopHeaders (by decide) (by decide)⟩

/-! ## Pipeline authentication and topic gating (C2, C7) -/

/-- C2 (amended): when the injected validator returns `false`, the use case
throws the authentication error before any request validation, transformation
or store operation — the store-call trace is empty, so no record is persisted;
and at the transport level, a request whose body parses and whose shop header
and recognized topic are present is answered 401 with no store call. Body
parsing, however, happens in the handler before signature verification. -/
theorem execute_auth_failure_short_circuits :
    (∀ (pd : String → Option Int) (v : String → Option String → Bool)
      (bulkOutcome : Option String) (so : Nat → Option String)
      (request : ProcessInventoryWebhookRequest),
      v request.rawBody request.signature = false →
      ProcessInventoryWebhookUseCase.execute pd v bulkOutcome so request =
        (.error "Invalid webhook signature", [])) ∧
    (∀ (pd : String → Option Int)
      (pl : String → Except String (List WebhookInventoryLevelDTO))
      (v : String → Option String → Bool) (bulkOutcome : Option String)
      (so : Nat → Option String) (body : String) (headers : String → Option String)
      (levels : List WebhookInventoryLevelDTO) (shopName : String),
      body ≠ "" → pl body = .ok levels →
      WebhookPayloadParser.extractShopName headers = .ok shopName →
      WebhookPayloadParser.extractTopic headers = "inventory_levels/update" →
      v body (WebhookPayloadParser.extractSignature headers) = false →
      handler pd pl v bulkOutcome so body headers =
        (⟨401, .failure "Unauthorized: Invalid signature" none⟩, [])) := by
  constructor
  · intro pd v bo so request hv
    simp [ProcessInventoryWebhookUseCase.execute, hv]
  · intro pd pl v bo so body headers levels shopName hb hpl hshop htopic hv
    have hcatch : handlerCatch "Invalid webhook signature" =
        ⟨401, HandlerBody.failure "Unauthorized: Invalid signature" none⟩ := by decide
    simp [handler, hb, hpl, hshop, htopic, ProcessInventoryWebhookUseCase.execute, hv, hcatch]

/-- C2 witness: with no signature header the real validator returns `false`,
the use case throws the authentication error with an empty store trace, and the
handler answers 401. -/
theorem execute_auth_failure_short_circuits_witness :
    ProcessInventoryWebhookUseCase.execute demoDateParse
      (ShopifyWebhookValidator.validate "secret") none (fun _ => none)
      ⟨"myshop", "raw", none, [demoDTO]⟩ = (.error "Invalid webhook signature", []) ∧
    handler demoDateParse demoParse (ShopifyWebhookValidator.validate "secret") none
      (fun _ => none) "raw" demoHeaders =
      (⟨401, .failure "Unauthorized: Invalid signature" none⟩, []) :=
  ⟨execute_auth_failure_short_circuits.1 demoDateParse
    (ShopifyWebhookValidator.validate "secret") none (fun _ => none)
    ⟨"myshop", "raw", none, [demoDTO]⟩ rfl,
   execute_auth_failure_short_circuits.2 demoDateParse demoParse
    (ShopifyWebhookValidator.validate "secret") none (fun _ => none) "raw" demoHeaders
    [demoDTO] "myshop.example" (by decide) rfl rfl rfl rfl⟩

/-- C2 counterexample: a request whose body `JSON.parse` rejects and whose
signature header is absent — the Signature Verifier returns `false` on this
request's body and signature, yet the handler answers 400 with the parse error
(parsing ran first), not an authentication error, although the topic is the
recognized one. -/
theorem handler_parses_before_signature_check_cex :
    ShopifyWebhookValidator.validate "secret" "not json"
      (WebhookPayloadParser.extractSignature demoHeaders) = false ∧
    handler demoDateParse parseFailure (ShopifyWebhookValidator.validate "secret") none
      (fun _ => none) "not json" demoHeaders =
      (⟨400, .failure "Bad request: Invalid JSON in webhook body" none⟩, []) ∧
    WebhookPayloadParser.extractTopic demoHeaders = "inventory_levels/update" := by
  exact ⟨rfl, by decide, rfl⟩

/-- C7 (amended): for a webhook whose body is non-empty and parses and whose
shop-domain header is extractable, an unrecognized topic yields the no-op
success response (HTTP 200, `processed: 0`); and for any request with an
unrecognized topic, whatever else happens, the store is never invoked. -/
theorem handler_unsupported_topic_noop :
    (∀ (pd : String → Option Int)
      (pl : String → Except String (List WebhookInventoryLevelDTO))
      (v : String → Option String → Bool) (bulkOutcome : Option String)
      (so : Nat → Option String) (body : String) (headers : String → Option String)
      (levels : List WebhookInventoryLevelDTO) (shopName : String),
      body ≠ "" → pl body = .ok levels →
      WebhookPayloadParser.extractShopName headers = .ok shopName →
      WebhookPayloadParser.extractTopic headers ≠ "inventory_levels/update" →
      handler pd pl v bulkOutcome so body headers =
        (⟨200, .success "Webhook type not supported" 0⟩, [])) ∧
    (∀ (pd : String → Option Int)
      (pl : String → Except String (List WebhookInventoryLevelDTO))
      (v : String → Option String → Bool) (bulkOutcome : Option String)
      (so : Nat → Option String) (body : String) (headers : String → Option String),
      WebhookPayloadParser.extractTopic headers ≠ "inventory_levels/update" →
      (handler pd pl v bulkOutcome so body headers).2 = []) := by
  constructor
  · intro pd pl v bo so body headers levels shopName hb hpl hshop htopic
    simp [handler, hb, hpl, hshop, htopic]
  · intro pd pl v bo so body headers htopic
    simp only [handler]
    split
    · rfl
    · cases pl body with
      | error e => rfl
      | ok levels =>
        cases WebhookPayloadParser.extractShopName headers with
        | error e => rfl
        | ok shopName =>
          rfl

/-- C7 witness: a parseable request with topic `"orders/create"` is answered
with the 200 no-op and an empty store trace; the trace also stays empty when
parsing fails under an unrecognized topic. -/
theorem handler_unsupported_topic_noop_witness :
    handler demoDateParse demoParse (ShopifyWebhookValidator.validate "secret") none
      (fun _ => none) "raw" wrongTopicHeaders =
      (⟨200, .success "Webhook type not supported" 0⟩, []) ∧
    (handler demoDateParse parseFailure (ShopifyWebhookValidator.validate "secret") none
      (fun _ => none) "not json" wrongTopicHeaders).2 = [] :=
  ⟨handler_unsupported_topic_noop.1 demoDateParse demoParse
    (ShopifyWebhookValidator.validate "secret") none (fun _ => none) "raw" wrongTopicHeaders
    [demoDTO] "myshop.example" (by decide) rfl rfl (by decide),
   handler_unsupported_topic_noop.2 demoDateParse parseFailure
    (ShopifyWebhookValidator.validate "secret") none (fun _ => none) "not json"
    wrongTopicHeaders (by decide)⟩

/-- C7 counterexample: a webhook whose topic header is `"orders/create"` but
whose body `JSON.parse` rejects is answered 400 with the parse error, not the
no-op success with `processed: 0` — parsing and shop extraction run before the
topic check (the store is still never invoked). -/
theorem handler_wrong_topic_parse_error_cex :
    WebhookPayloadParser.extractTopic wrongTopicHeaders = "orders/create" ∧
    handler demoDateParse parseFailure (ShopifyWebhookValidator.validate "secret") none
      (fun _ => none) "not json" wrongTopicHeaders =
      (⟨400, .failure "Bad request: Invalid JSON in webhook body" none⟩, []) := by
  exact ⟨rfl, by decide⟩
